import Mathlib

/-!
Verification development for PIL's `ImagePalette` module
(`src/PIL/ImagePalette.py`).

The Python class `ImagePalette` is embedded shallowly:

* the byte buffer `self.palette` / `self._palette` is a `List Nat`
  (its elements are byte values; list buffers reachable from the module
  carry plain machine ints, and every value relevant to the claims is
  below 256, so element-range checks of `bytearray` assignment are not
  modelled — only the positional bounds check, which raises IndexError
  in Python, is);
* the derived dict `self.colors` is an association list from color
  tuples (`List Nat`) to palette indices, with Python-dict semantics:
  updating an existing key keeps its position, a new key is appended;
* Python exceptions are values of `PyErr`, and fallible operations
  return `Except PyErr _` (paired with the post-state where the
  operation can mutate before failing);
* `rawmode` is `Option String`; Python tests it by truthiness, so the
  empty tag behaves like an unset one (`isRaw`).
-/

set_option maxRecDepth 10000

deriving instance DecidableEq for Except

inductive PyErr where
  | valueError (msg : String)
  | indexError
  | overflowError
  deriving DecidableEq, Repr

abbrev ColorKey := List Nat

/-- Python-dict insertion: replace the value of an existing key in place,
append a missing key at the end (`self.colors[color] = index`). -/
def dinsert : List (ColorKey × Nat) → ColorKey → Nat → List (ColorKey × Nat)
  | [], k, v => [(k, v)]
  | e :: m, k, v => if e.1 = k then (k, v) :: m else e :: dinsert m k v

/-- Python-dict lookup (`self.colors[color]`, `color in self.colors`). -/
def dlookup : List (ColorKey × Nat) → ColorKey → Option Nat
  | [], _ => none
  | e :: m, k => if e.1 = k then some e.2 else dlookup m k

/-- Loop of the `colors` rebuild in the `palette` property setter:
`for i in range(0, len(self.palette), mode_len)` inserting
`tuple(self.palette[i : i + mode_len]) -> i // mode_len`.
`cnt` is the number of remaining loop iterations, `i` the current start. -/
def buildColorsGo (C : Nat) (buf : List Nat) :
    List (ColorKey × Nat) → Nat → Nat → List (ColorKey × Nat)
  | m, _, 0 => m
  | m, i, cnt + 1 => buildColorsGo C buf (dinsert m ((buf.drop i).take C) (i / C)) (i + C) cnt

/-- Rebuild of `self.colors` from the buffer (the `palette` setter,
lines 53-61).  For `C > 0` the Python loop `range(0, len(buf), C)` runs
`ceil(len(buf) / C)` times; for `C = 0` Python raises before iterating
(callers in this file guard that case), so the value here is unused. -/
def buildColors (C : Nat) (buf : List Nat) : List (ColorKey × Nat) :=
  buildColorsGo C buf [] 0 (if C = 0 then 0 else (buf.length + C - 1) / C)

/-- State of a Python `ImagePalette` instance. -/
structure ImagePalette where
  mode : String
  rawmode : Option String
  palette : List Nat
  colors : List (ColorKey × Nat)
  dirty : Option Nat
  deriving DecidableEq, Repr

/-- Default buffer `bytearray(range(256)) * C`: the 0..255 ramp repeated
once per channel (channel-planar identity ramp). -/
def defaultRamp (C : Nat) : List Nat :=
  (List.replicate C (List.range 256)).flatten

/-- Truthiness of `self.rawmode` (`if self.rawmode:`): an empty raw tag
is falsy in Python. -/
def isRaw (p : ImagePalette) : Bool :=
  decide (p.rawmode.getD "" ≠ "")

/-- Constructor `ImagePalette.__init__(mode="RGB", palette=None, size=0)`.
`palette or bytearray(range(256)) * len(mode)` replaces a falsy
(omitted or empty) buffer by the default ramp.  Assigning `self.palette`
runs the property setter, which rebuilds `colors`; with an empty mode the
setter's `range(0, len, 0)` raises ValueError before the size check. -/
def mkImagePalette (mode : String) (palette : Option (List Nat)) (size : Nat) :
    Except PyErr ImagePalette :=
  let C := mode.length
  let buf := match palette with
    | none => defaultRamp C
    | some b => if b.length = 0 then defaultRamp C else b
  if C = 0 then .error (.valueError "range() arg 3 must not be zero")
  else
    let colors := buildColors C buf
    if (size = 0 ∧ C * 256 ≠ buf.length) ∨ (size ≠ 0 ∧ size ≠ buf.length) then
      .error (.valueError "wrong palette size")
    else
      .ok { mode := mode, rawmode := none, palette := buf, colors := colors, dirty := none }

/-- Wholesale buffer replacement: the `palette` property setter
(`self._palette := palette` followed by the `colors` rebuild). -/
def setPalette (p : ImagePalette) (buf : List Nat) : Except PyErr ImagePalette :=
  if p.mode.length = 0 then .error (.valueError "range() arg 3 must not be zero")
  else .ok { p with palette := buf, colors := buildColors p.mode.length buf }

/-- The palette produced by `ImagePalette()` with all defaults. -/
def defaultImagePalette : ImagePalette :=
  { mode := "RGB", rawmode := none, palette := defaultRamp 3
    colors := buildColors 3 (defaultRamp 3), dirty := none }

/-- Function `raw(rawmode, data)`: starts from `ImagePalette()` (which
cannot fail: mode "RGB"), sets `rawmode`, assigns `palette = data`
through the setter (rebuilding `colors` with `mode_len = 3`), sets
`dirty = 1`.  No size validation happens. -/
def raw (rawmode : String) (data : List Nat) : ImagePalette :=
  { defaultImagePalette with
      rawmode := some rawmode
      palette := data
      colors := buildColors 3 data
      dirty := some 1 }

/-- Method `ImagePalette.copy()`: a fresh instance gets `mode`,
`rawmode` and `dirty` copied, and `new.palette = self.palette[:]`
assigns a duplicated buffer through the setter (so the copy's `colors`
is rebuilt from the buffer).  Heap-level independence of the duplicated
buffer is modelled separately by `copyH` below. -/
def copy (p : ImagePalette) : Except PyErr ImagePalette :=
  if p.mode.length = 0 then .error (.valueError "range() arg 3 must not be zero")
  else .ok { mode := p.mode, rawmode := p.rawmode, palette := p.palette
             colors := buildColors p.mode.length p.palette, dirty := p.dirty }

/-- Method `ImagePalette.tobytes()`: fails on a raw palette; otherwise
serializes the buffer (`array.array("B", ...)` rejects non-byte values). -/
def tobytes (p : ImagePalette) : Except PyErr (List Nat) :=
  if isRaw p then .error (.valueError "palette contains raw palette data")
  else if p.palette.all (· < 256) then .ok p.palette
  else .error .overflowError

/-- Method `ImagePalette.getdata()`: on a raw palette it returns
`(rawmode, palette)` without failing; otherwise `(mode + ";L", tobytes())`. -/
def getdata (p : ImagePalette) : Except PyErr (String × List Nat) :=
  if isRaw p then .ok (p.rawmode.getD "", p.palette)
  else (tobytes p).map (fun b => (p.mode ++ ";L", b))

/-- Argument of `getcolor`: either a tuple of channel values or a
non-tuple object carrying its `repr` string. -/
inductive ColorArg where
  | tup (t : List Nat)
  | nonTuple (r : String)
  deriving DecidableEq, Repr

/-- Method `ImagePalette.getcolor(color)` (lines 102-126).  Returns the
Python result (value or exception) together with the post-state; the
allocation path inserts into `colors` first and then performs the three
hard-coded channel writes `palette[index]`, `palette[index + 256]`,
`palette[index + 512]` one by one, so a failing write leaves the earlier
mutations behind. -/
def getcolor (p : ImagePalette) (color : ColorArg) : Except PyErr Nat × ImagePalette :=
  if isRaw p then (.error (.valueError "palette contains raw palette data"), p)
  else match color with
  | .nonTuple r => (.error (.valueError ("unknown color specifier: " ++ r)), p)
  | .tup t =>
    match dlookup p.colors t with
    | some i => (.ok i, p)
    | none =>
      let index := p.colors.length
      if 256 ≤ index then (.error (.valueError "cannot allocate more than 256 colors"), p)
      else
        let p1 : ImagePalette := { p with colors := dinsert p.colors t index }
        match t[0]? with
        | none => (.error .indexError, p1)
        | some v0 =>
          if index < p1.palette.length then
            let p2 : ImagePalette := { p1 with palette := p1.palette.set index v0 }
            match t[1]? with
            | none => (.error .indexError, p2)
            | some v1 =>
              if index + 256 < p2.palette.length then
                let p3 : ImagePalette := { p2 with palette := p2.palette.set (index + 256) v1 }
                match t[2]? with
                | none => (.error .indexError, p3)
                | some v2 =>
                  if index + 512 < p3.palette.length then
                    (.ok index,
                     { p3 with palette := p3.palette.set (index + 512) v2, dirty := some 1 })
                  else (.error .indexError, p3)
              else (.error .indexError, p2)
          else (.error .indexError, p1)

/-- Run a sequence of `getcolor` calls with tuple arguments, collecting
the returned indices; `none` when some call raises. -/
def runOk : ImagePalette → List ColorKey → Option (List Nat × ImagePalette)
  | p, [] => some ([], p)
  | p, t :: rest =>
    match getcolor p (.tup t) with
    | (.ok i, p1) => (runOk p1 rest).map (fun rq => (i :: rq.1, rq.2))
    | _ => none

/-- Writes emitted by one iteration of the outer loop of `save` for
index `i`: `f"{i}"`, one write per `j in range(i*C, (i+1)*C)` (`f" {v}"`
for the value at `j`, or `" 0"` on IndexError), then the newline. -/
def entryChunks (p : ImagePalette) (i : Nat) : List String :=
  [Nat.repr i] ++
  (List.range p.mode.length).map (fun c =>
    match p.palette[i * p.mode.length + c]? with
    | some v => " " ++ Nat.repr v
    | none => " 0") ++ ["\n"]

/-- Method `ImagePalette.save(fp)` (lines 128-147) as the sequence of
strings written to the sink: the two header writes, then the per-index
writes of `entryChunks`. -/
def saveChunks (p : ImagePalette) : Except PyErr (List String) :=
  if isRaw p then .error (.valueError "palette contains raw palette data")
  else .ok (["# Palette\n", "# Mode: " ++ p.mode ++ "\n"] ++
    (List.range 256).flatMap (entryChunks p))

/-- Split a character stream into text-file lines: segments terminated
by a newline, plus a final unterminated segment when nonempty (the
convention of Python's `readlines`, without the terminators). -/
def splitLinesAcc : List Char → List Char → List (List Char)
  | [], acc => if acc.isEmpty then [] else [acc.reverse]
  | c :: rest, acc =>
    if c = '\n' then acc.reverse :: splitLinesAcc rest []
    else splitLinesAcc rest (c :: acc)

def textLines (s : List Char) : List (List Char) :=
  splitLinesAcc s []

/-- Lines of the text file produced by `save`. -/
def saveLinesE (p : ImagePalette) : Except PyErr (List String) :=
  (saveChunks p).map (fun cs => (textLines (cs.flatMap String.data)).map (fun l => String.mk l))

/-- Rendering of the data line for index `i` that `save` actually
produces: the index followed by the buffer values at the interleaved
positions `i*C + c`, with `0` for out-of-range positions.  Stated
separately so the line-level theorem about `saveLinesE` can be compared
against the claim's channel-planar rendering. -/
def specSaveLine (p : ImagePalette) (i : Nat) : String :=
  String.mk ((Nat.repr i).data ++ (List.range p.mode.length).flatMap (fun c =>
    (match p.palette[i * p.mode.length + c]? with
     | some v => " " ++ Nat.repr v
     | none => " 0").data))

/-- Factory `wedge(mode)`: `ImagePalette(mode, list(range(256)) * len(mode))`;
the buffer expression equals `defaultRamp`. -/
def wedge (mode : String) : Except PyErr ImagePalette :=
  mkImagePalette mode (some (defaultRamp mode.length)) 0

/-- A palette instance with the buffer held by reference into a heap of
buffers, to express aliasing between instances. -/
structure PalHandle where
  mode : String
  rawmode : Option String
  bufId : Nat
  colors : List (ColorKey × Nat)
  dirty : Option Nat
  deriving DecidableEq, Repr

/-- View a handle as a plain palette by dereferencing its buffer. -/
def asPalette (h : List (List Nat)) (q : PalHandle) : ImagePalette :=
  { mode := q.mode, rawmode := q.rawmode, palette := h[q.bufId]?.getD []
    colors := q.colors, dirty := q.dirty }

/-- getcolor on a handle: runs `getcolor` on the dereferenced palette and
stores the written buffer back at the same heap slot. -/
def getcolorH (h : List (List Nat)) (q : PalHandle) (c : ColorArg) :
    Except PyErr Nat × List (List Nat) × PalHandle :=
  let rp := getcolor (asPalette h q) c
  (rp.1, h.set q.bufId rp.2.palette,
   { mode := rp.2.mode, rawmode := rp.2.rawmode, bufId := q.bufId
     colors := rp.2.colors, dirty := rp.2.dirty })

/-- copy on a handle: `new.palette = self.palette[:]` duplicates the
buffer, so the copy's buffer lives in a fresh heap slot; `colors` is
rebuilt from the duplicate by the setter. -/
def copyH (h : List (List Nat)) (q : PalHandle) :
    Except PyErr (List (List Nat) × PalHandle) :=
  if q.mode.length = 0 then .error (.valueError "range() arg 3 must not be zero")
  else
    let buf := h[q.bufId]?.getD []
    .ok (h ++ [buf],
      { mode := q.mode, rawmode := q.rawmode, bufId := h.length
        colors := buildColors q.mode.length buf, dirty := q.dirty })

/-! Small lemmas about the dict model. -/

theorem dinsert_of_dlookup_none {m : List (ColorKey × Nat)} {k : ColorKey} {v : Nat}
    (h : dlookup m k = none) : dinsert m k v = m ++ [(k, v)] := by
  induction m with
  | nil => rfl
  | cons e m ih =>
    by_cases hek : e.1 = k
    · simp [dlookup, hek] at h
    · simp only [dinsert, dlookup, hek, if_false] at h ⊢
      simp [ih h]

theorem dlookup_append_single_ne {m : List (ColorKey × Nat)} {k k' : ColorKey} {v : Nat}
    (h : k' ≠ k) : dlookup (m ++ [(k, v)]) k' = dlookup m k' := by
  induction m with
  | nil =>
    simp only [List.nil_append, dlookup]
    rw [if_neg fun he => h he.symm]
  | cons e m ih =>
    by_cases hek : e.1 = k'
    · simp [dlookup, hek]
    · simp [dlookup, hek, ih]

theorem length_dinsert_of_none {m : List (ColorKey × Nat)} {k : ColorKey} {v : Nat}
    (h : dlookup m k = none) : (dinsert m k v).length = m.length + 1 := by
  rw [dinsert_of_dlookup_none h]; simp

/-! Characterization of the branches of `getcolor`. -/

theorem getcolor_raw {p : ImagePalette} (h : isRaw p = true) (c : ColorArg) :
    getcolor p c = (.error (.valueError "palette contains raw palette data"), p) := by
  unfold getcolor; simp [h]

theorem getcolor_nonTuple {p : ImagePalette} (h : isRaw p = false) (r : String) :
    getcolor p (.nonTuple r) =
      (.error (.valueError ("unknown color specifier: " ++ r)), p) := by
  unfold getcolor; simp [h]

theorem getcolor_lookup {p : ImagePalette} {t : ColorKey} {i : Nat}
    (hraw : isRaw p = false) (hlk : dlookup p.colors t = some i) :
    getcolor p (.tup t) = (.ok i, p) := by
  unfold getcolor; simp [hraw, hlk]

theorem getcolor_capacity {p : ImagePalette} {t : ColorKey}
    (hraw : isRaw p = false) (hlk : dlookup p.colors t = none)
    (hfull : 256 ≤ p.colors.length) :
    getcolor p (.tup t) =
      (.error (.valueError "cannot allocate more than 256 colors"), p) := by
  unfold getcolor; simp [hraw, hlk, hfull]

theorem getcolor_alloc {p : ImagePalette} {t : ColorKey} {i : Nat} {p' : ImagePalette}
    (hraw : isRaw p = false) (hlk : dlookup p.colors t = none)
    (h : getcolor p (.tup t) = (.ok i, p')) :
    i = p.colors.length ∧ p.colors.length < 256 ∧
    ∃ v0 v1 v2, t[0]? = some v0 ∧ t[1]? = some v1 ∧ t[2]? = some v2 ∧
      p.colors.length + 512 < p.palette.length ∧
      p' = { p with
              colors := dinsert p.colors t p.colors.length
              palette := ((p.palette.set p.colors.length v0).set
                            (p.colors.length + 256) v1).set (p.colors.length + 512) v2
              dirty := some 1 } := by
  unfold getcolor at h
  simp only [hraw, Bool.false_eq_true, if_false, hlk] at h
  by_cases hfull : 256 ≤ p.colors.length
  · simp [hfull] at h
  · simp only [hfull, if_false] at h
    cases h0 : t[0]? with
    | none => simp [h0] at h
    | some v0 =>
      simp only [h0] at h
      by_cases hb0 : p.colors.length < p.palette.length
      · simp only [hb0, if_true] at h
        cases h1 : t[1]? with
        | none => simp [h1] at h
        | some v1 =>
          simp only [h1] at h
          by_cases hb1 : p.colors.length + 256 < p.palette.length
          · simp only [List.length_set, hb1, if_true] at h
            cases h2 : t[2]? with
            | none => simp [h2] at h
            | some v2 =>
              simp only [h2] at h
              by_cases hb2 : p.colors.length + 512 < p.palette.length
              · simp only [List.length_set, hb2, if_true, Prod.mk.injEq] at h
                obtain ⟨hi, hp⟩ := h
                cases hi
                refine ⟨rfl, by omega, v0, v1, v2, rfl, rfl, rfl, hb2, ?_⟩
                exact hp.symm
              · simp [List.length_set, hb2] at h
          · simp [List.length_set, hb1] at h
      · simp [hb0] at h

/-- Reading the three hard-coded allocation writes back, and the frame of
every other position. -/
theorem getElem?_set3 (l : List Nat) (i v0 v1 v2 : Nat) (hb : i + 512 < l.length) :
    (((l.set i v0).set (i + 256) v1).set (i + 512) v2)[i]? = some v0 ∧
    (((l.set i v0).set (i + 256) v1).set (i + 512) v2)[i + 256]? = some v1 ∧
    (((l.set i v0).set (i + 256) v1).set (i + 512) v2)[i + 512]? = some v2 ∧
    ∀ j, j ≠ i → j ≠ i + 256 → j ≠ i + 512 →
      (((l.set i v0).set (i + 256) v1).set (i + 512) v2)[j]? = l[j]? := by
  refine ⟨?_, ?_, ?_, ?_⟩
  · rw [List.getElem?_set_ne (by omega), List.getElem?_set_ne (by omega)]
    exact List.getElem?_set_self (by omega)
  · rw [List.getElem?_set_ne (by omega)]
    exact List.getElem?_set_self (by simp only [List.length_set]; omega)
  · exact List.getElem?_set_self (by simp only [List.length_set]; omega)
  · intro j hj0 hj1 hj2
    rw [List.getElem?_set_ne (Ne.symm hj2), List.getElem?_set_ne (Ne.symm hj1),
      List.getElem?_set_ne (Ne.symm hj0)]

/-- C1 (counterexample): on the default-size RGBA palette with an all-zero
buffer, allocating the 4-tuple (9, 9, 9, 7) succeeds with index 1, yet
position 3*256 + 1 of the buffer still holds 0, not the fourth channel
value 7: `getcolor` writes only three channels whatever the mode is. -/
theorem claim1_counterexample :
    (mkImagePalette "RGBA" (some (List.replicate 1024 0)) 0).map (fun p =>
      ((getcolor p (.tup [9, 9, 9, 7])).1,
       (getcolor p (.tup [9, 9, 9, 7])).2.palette[3 * 256 + 1]?,
       ([9, 9, 9, 7] : List Nat)[3]?)) = .ok (.ok 1, some 0, some 7) ∧
    (0 : Nat) ≠ 7 := by
  exact ⟨by decide, by decide⟩

/-- C1 (amended): a successful allocating `getcolor` call writes the first
three channel values channel-planar — `palette[c*256 + newIndex] =
colorTuple[c]` holds exactly for channels `c < 3`, for every mode string,
because the three writes are hard-coded; further channels are not
written (see the counterexample). -/
theorem claim1_theorem (p : ImagePalette) (t : ColorKey) (i : Nat) (p' : ImagePalette)
    (hraw : p.rawmode = none) (hlk : dlookup p.colors t = none)
    (h : getcolor p (.tup t) = (.ok i, p')) :
    ∀ c, c < 3 → p'.palette[c * 256 + i]? = t[c]? := by
  have hr : isRaw p = false := by simp [isRaw, hraw]
  obtain ⟨rfl, hlt, v0, v1, v2, h0, h1, h2, hb, hp⟩ := getcolor_alloc hr hlk h
  obtain ⟨e0, e1, e2, _⟩ := getElem?_set3 p.palette p.colors.length v0 v1 v2 hb
  intro c hc
  interval_cases c
  · rw [hp, h0]
    simpa using e0
  · rw [hp, h1]
    simpa [Nat.add_comm 256 p.colors.length] using e1
  · rw [hp, h2]
    simpa [Nat.add_comm 512 p.colors.length] using e2

/-- Witness palette for C1: a non-raw RGBA palette with an all-zero
default-size buffer and one pre-existing color entry. -/
def paletteC1 : ImagePalette :=
  { mode := "RGBA", rawmode := none, palette := List.replicate 1024 0
    colors := [([0, 0, 0, 0], 255)], dirty := none }

/-- State after allocating (9, 9, 9, 7) on `paletteC1`. -/
def paletteC1' : ImagePalette :=
  { mode := "RGBA", rawmode := none
    palette := (((List.replicate 1024 0).set 1 9).set 257 9).set 513 9
    colors := [([0, 0, 0, 0], 255), ([9, 9, 9, 7], 1)], dirty := some 1 }

/-- C1 witness: the amended claim evaluated on a concrete allocation. -/
theorem claim1_witness :
    getcolor paletteC1 (.tup [9, 9, 9, 7]) = (.ok 1, paletteC1') ∧
    paletteC1'.palette[0 * 256 + 1]? = ([9, 9, 9, 7] : List Nat)[0]? ∧
    paletteC1'.palette[1 * 256 + 1]? = ([9, 9, 9, 7] : List Nat)[1]? ∧
    paletteC1'.palette[2 * 256 + 1]? = ([9, 9, 9, 7] : List Nat)[2]? := by
  have h : getcolor paletteC1 (.tup [9, 9, 9, 7]) = (.ok 1, paletteC1') := by decide
  exact ⟨h, claim1_theorem _ _ _ _ rfl (by decide) h 0 (by decide),
    claim1_theorem _ _ _ _ rfl (by decide) h 1 (by decide),
    claim1_theorem _ _ _ _ rfl (by decide) h 2 (by decide)⟩

/-- C2: on a non-raw palette whose colors dict already holds 256 entries,
requesting a tuple that is not a key fails with the capacity ValueError
and returns the state entirely unchanged (colors and buffer included):
the check `index >= 256` fires before any mutation. -/
theorem claim2_theorem (p : ImagePalette) (t : ColorKey)
    (hraw : p.rawmode = none) (hfull : p.colors.length = 256)
    (hlk : dlookup p.colors t = none) :
    getcolor p (.tup t) =
      (.error (.valueError "cannot allocate more than 256 colors"), p) := by
  have hr : isRaw p = false := by simp [isRaw, hraw]
  exact getcolor_capacity hr hlk (by omega)

/-- Witness palette for C2: a non-raw mode-"L" palette whose colors dict
holds 256 entries. -/
def paletteC2 : ImagePalette :=
  { mode := "L", rawmode := none, palette := List.range 256
    colors := (List.range 256).map (fun k => ([k], k)), dirty := none }

/-- C2 witness: the capacity failure evaluated on a concrete full palette. -/
theorem claim2_witness :
    paletteC2.rawmode = none ∧ paletteC2.colors.length = 256 ∧
    dlookup paletteC2.colors [300] = none ∧
    getcolor paletteC2 (.tup [300]) =
      (.error (.valueError "cannot allocate more than 256 colors"), paletteC2) :=
  ⟨rfl, by decide, by decide, claim2_theorem _ _ rfl (by decide) (by decide)⟩

/-- C9 (counterexample): on a non-raw RGB palette with room, `getcolor`
applied to the 4-tuple (1, 2, 3, 4) — not a tuple of exactly
`len("RGB") = 3` channel values — does not fail at all: it allocates
index 1 using the first three entries. -/
theorem claim9_counterexample :
    (mkImagePalette "RGB" (some (List.replicate 768 0)) 0).map
      (fun p => (getcolor p (.tup [1, 2, 3, 4])).1) = .ok (.ok 1) ∧
    ([1, 2, 3, 4] : List Nat).length ≠ "RGB".length := by
  exact ⟨by decide, by decide⟩

/-- C9 (amended): `getcolor` fails with ValueError and performs no
mutation when the palette is raw (whatever the argument) or when the
argument is not a tuple; a tuple of the wrong length is not itself
rejected — a tuple with at least three entries can be allocated
regardless of `len(mode)` (see the counterexample), and a shorter tuple
raises IndexError after partial mutation. -/
theorem claim9_theorem (p : ImagePalette) :
    (isRaw p = true →
      ∀ c, getcolor p c = (.error (.valueError "palette contains raw palette data"), p)) ∧
    (isRaw p = false →
      ∀ r, getcolor p (.nonTuple r) =
        (.error (.valueError ("unknown color specifier: " ++ r)), p)) :=
  ⟨fun h c => getcolor_raw h c, fun h r => getcolor_nonTuple h r⟩

/-- C9 witness: both failure modes evaluated on concrete palettes. -/
theorem claim9_witness :
    isRaw (raw "X;16" [1, 2, 3]) = true ∧
    getcolor (raw "X;16" [1, 2, 3]) (.tup [0, 0, 0]) =
      (.error (.valueError "palette contains raw palette data"), raw "X;16" [1, 2, 3]) ∧
    isRaw defaultImagePalette = false ∧
    getcolor defaultImagePalette (.nonTuple "5") =
      (.error (.valueError ("unknown color specifier: " ++ "5")), defaultImagePalette) :=
  ⟨by decide, (claim9_theorem _).1 (by decide) _, by decide, (claim9_theorem _).2 (by decide) "5"⟩

/-- C10: on a non-raw RGB palette with the invariant buffer size 768, a
successful allocating `getcolor` call returns `newIndex = len(colors)`
(< 256, so all three write positions are in bounds), changes only the
buffer positions `newIndex`, `newIndex + 256`, `newIndex + 512` (to the
first three tuple entries), preserves `mode` and `rawmode`, appends
exactly one colors entry, and sets `dirty`. -/
theorem claim10_theorem (p : ImagePalette) (t : ColorKey) (i : Nat) (p' : ImagePalette)
    (hraw : p.rawmode = none) (hmode : p.mode = "RGB") (hlen : p.palette.length = 768)
    (hlk : dlookup p.colors t = none) (h : getcolor p (.tup t) = (.ok i, p')) :
    i = p.colors.length ∧ i < 256 ∧ i + 512 < 768 ∧
    p'.mode = "RGB" ∧ p'.rawmode = none ∧ p'.dirty = some 1 ∧
    p'.colors = p.colors ++ [(t, i)] ∧ p'.palette.length = 768 ∧
    p'.palette[i]? = t[0]? ∧ p'.palette[i + 256]? = t[1]? ∧ p'.palette[i + 512]? = t[2]? ∧
    ∀ j, j ≠ i → j ≠ i + 256 → j ≠ i + 512 → p'.palette[j]? = p.palette[j]? := by
  have hr : isRaw p = false := by simp [isRaw, hraw]
  obtain ⟨rfl, hlt, v0, v1, v2, h0, h1, h2, hb, hp⟩ := getcolor_alloc hr hlk h
  obtain ⟨e0, e1, e2, eframe⟩ := getElem?_set3 p.palette p.colors.length v0 v1 v2 hb
  subst hp
  refine ⟨rfl, hlt, by omega, hmode, hraw, rfl, ?_, by simp [hlen], ?_, ?_, ?_, ?_⟩
  · exact dinsert_of_dlookup_none hlk
  · rw [h0]; exact e0
  · rw [h1]; exact e1
  · rw [h2]; exact e2
  · exact eframe

/-- Witness palette for C10: a non-raw RGB palette with an all-zero
768-byte buffer and one pre-existing color entry. -/
def paletteC10 : ImagePalette :=
  { mode := "RGB", rawmode := none, palette := List.replicate 768 0
    colors := [([0, 0, 0], 255)], dirty := none }

/-- State after allocating (4, 5, 6) on `paletteC10`. -/
def paletteC10' : ImagePalette :=
  { mode := "RGB", rawmode := none
    palette := (((List.replicate 768 0).set 1 4).set 257 5).set 513 6
    colors := [([0, 0, 0], 255), ([4, 5, 6], 1)], dirty := some 1 }

/-- C10 witness: the frame conditions evaluated on a concrete allocation. -/
theorem claim10_witness :
    getcolor paletteC10 (.tup [4, 5, 6]) = (.ok 1, paletteC10') ∧
    (1 : Nat) = paletteC10.colors.length ∧
    paletteC10'.colors = paletteC10.colors ++ [([4, 5, 6], 1)] ∧
    paletteC10'.palette[1]? = ([4, 5, 6] : List Nat)[0]? ∧
    paletteC10'.palette[0]? = paletteC10.palette[0]? := by
  have h : getcolor paletteC10 (.tup [4, 5, 6]) = (.ok 1, paletteC10') := by decide
  have hc := claim10_theorem paletteC10 [4, 5, 6] 1 paletteC10' rfl rfl (by decide) (by decide) h
  exact ⟨h, hc.1, hc.2.2.2.2.2.2.1, hc.2.2.2.2.2.2.2.2.1,
    hc.2.2.2.2.2.2.2.2.2.2.2 0 (by decide) (by decide) (by decide)⟩

/-- Result classifier: did a constructor-like call fail with a ValueError? -/
def isValueErrorResult {α : Type} : Except PyErr α → Bool
  | .error (.valueError _) => true
  | _ => false

/-- C4 (counterexample): an empty supplied buffer is falsy, so
`palette or default` silently replaces it by the default ramp and
construction succeeds, although the supplied length 0 differs from
`256 * len("RGB")`. -/
theorem claim4_counterexample :
    mkImagePalette "RGB" (some []) 0 = .ok defaultImagePalette ∧
    ([] : List Nat).length ≠ 256 * "RGB".length := by
  exact ⟨rfl, by decide⟩

/-- C4 (amended): for every mode string and every supplied non-empty
buffer whose length is neither `256*len(mode)` (when size = 0) nor the
explicitly supplied nonzero size, construction fails with a ValueError
and produces no object; an empty supplied buffer, being falsy, is
replaced by the default ramp before the check (see the counterexample). -/
theorem claim4_theorem (mode : String) (b : List Nat) (size : Nat)
    (hb : b ≠ [])
    (hmis : (size = 0 ∧ b.length ≠ 256 * mode.length) ∨ (size ≠ 0 ∧ size ≠ b.length)) :
    isValueErrorResult (mkImagePalette mode (some b) size) = true := by
  have hbl : ¬ b.length = 0 := by simpa using hb
  by_cases hC : mode.length = 0
  · simp [mkImagePalette, hbl, hC, isValueErrorResult]
  · have hcond : (size = 0 ∧ mode.length * 256 ≠ b.length) ∨ (size ≠ 0 ∧ size ≠ b.length) := by
      rcases hmis with ⟨h1, h2⟩ | h
      · exact Or.inl ⟨h1, by omega⟩
      · exact Or.inr h
    simp [mkImagePalette, hbl, hC, hcond, isValueErrorResult]

/-- C4 witness: the sizing failure evaluated on a concrete mismatched buffer. -/
theorem claim4_witness :
    ([1, 2] : List Nat) ≠ [] ∧
    isValueErrorResult (mkImagePalette "RGB" (some [1, 2]) 0) = true :=
  ⟨by decide, claim4_theorem "RGB" [1, 2] 0 (by decide) (Or.inl ⟨rfl, by decide⟩)⟩

/-- C7 (counterexample): `getdata` on a raw palette does not fail — it
returns the pair `(rawmode, buffer)`, so half of the claim ("both
ToBytes and GetData fail with ValueError") is false on the code. -/
theorem claim7_counterexample :
    getdata (raw "X;16" [1, 2, 3]) = .ok ("X;16", [1, 2, 3]) := by
  decide

/-- C7 (amended): when `rawmode` is set (to a truthy tag), `tobytes`
fails with ValueError while `getdata` returns `(rawmode, buffer)`
unchanged without failing; in particular `raw("X;16", data)` followed by
`getdata()` returns `("X;16", data)`. -/
theorem claim7_theorem :
    (∀ (p : ImagePalette) (r : String), p.rawmode = some r → r ≠ "" →
      tobytes p = .error (.valueError "palette contains raw palette data") ∧
      getdata p = .ok (r, p.palette)) ∧
    (∀ d : List Nat, getdata (raw "X;16" d) = .ok ("X;16", d)) := by
  constructor
  · intro p r hraw hne
    have hr : isRaw p = true := by simp [isRaw, hraw, hne]
    refine ⟨?_, ?_⟩
    · simp [tobytes, hr]
    · simp [getdata, hr, hraw]
  · intro d
    simp [getdata, isRaw, raw]

/-- C7 witness: the raw-mode behaviors evaluated on concrete raw palettes. -/
theorem claim7_witness :
    tobytes (raw "A" [7]) = .error (.valueError "palette contains raw palette data") ∧
    getdata (raw "A" [7]) = .ok ("A", [7]) ∧
    getdata (raw "X;16" [1, 2]) = .ok ("X;16", [1, 2]) := by
  have h := claim7_theorem.1 (raw "A" [7]) "A" rfl (by decide)
  exact ⟨h.1, h.2, claim7_theorem.2 [1, 2]⟩

/-! Invariants of the `colors` rebuild. -/

theorem mem_dinsert {m : List (ColorKey × Nat)} {k : ColorKey} {v : Nat}
    {e : ColorKey × Nat} (h : e ∈ dinsert m k v) : e = (k, v) ∨ e ∈ m := by
  induction m with
  | nil => simpa [dinsert] using h
  | cons e0 m ih =>
    by_cases he : e0.1 = k
    · simp only [dinsert, if_pos he] at h
      rcases List.mem_cons.mp h with h | h
      · exact Or.inl h
      · exact Or.inr (List.mem_cons_of_mem _ h)
    · simp only [dinsert, if_neg he] at h
      rcases List.mem_cons.mp h with h | h
      · exact Or.inr (by simp [h])
      · rcases ih h with h' | h'
        · exact Or.inl h'
        · exact Or.inr (List.mem_cons_of_mem _ h')

theorem length_dinsert_le (m : List (ColorKey × Nat)) (k : ColorKey) (v : Nat) :
    (dinsert m k v).length ≤ m.length + 1 := by
  induction m with
  | nil => simp [dinsert]
  | cons e m ih =>
    by_cases he : e.1 = k
    · simp [dinsert, he]
    · simp only [dinsert, he, if_false, List.length_cons]
      omega

theorem buildColorsGo_length_le (C : Nat) (buf : List Nat) :
    ∀ (cnt : Nat) (m : List (ColorKey × Nat)) (i : Nat),
      (buildColorsGo C buf m i cnt).length ≤ m.length + cnt := by
  intro cnt
  induction cnt with
  | zero => intro m i; simp [buildColorsGo]
  | succ cnt ih =>
    intro m i
    calc (buildColorsGo C buf (dinsert m ((buf.drop i).take C) (i / C)) (i + C) cnt).length
        ≤ (dinsert m ((buf.drop i).take C) (i / C)).length + cnt := ih _ _
      _ ≤ m.length + 1 + cnt := by have := length_dinsert_le m ((buf.drop i).take C) (i / C); omega
      _ = m.length + (cnt + 1) := by omega

theorem buildColorsGo_value_inj (C : Nat) (buf : List Nat) (hC : 0 < C) :
    ∀ (cnt : Nat) (m : List (ColorKey × Nat)) (i : Nat),
      (∀ e ∈ m, e.2 < i / C) →
      (∀ e1 e2, e1 ∈ m → e2 ∈ m → e1.2 = e2.2 → e1.1 = e2.1) →
      (∀ e1 e2, e1 ∈ buildColorsGo C buf m i cnt → e2 ∈ buildColorsGo C buf m i cnt →
        e1.2 = e2.2 → e1.1 = e2.1) := by
  intro cnt
  induction cnt with
  | zero => intro m i _ hinj; simpa [buildColorsGo] using hinj
  | succ cnt ih =>
    intro m i hbound hinj
    simp only [buildColorsGo]
    have hdiv : (i + C) / C = i / C + 1 := by
      rw [Nat.add_div_right _ hC]
    apply ih (dinsert m ((buf.drop i).take C) (i / C)) (i + C)
    · intro e he
      rcases mem_dinsert he with h1 | he'
      · rw [h1]
        simp [hdiv]
      · have := hbound e he'
        omega
    · intro e1 e2 he1 he2 hv
      rcases mem_dinsert he1 with h1 | he1' <;> rcases mem_dinsert he2 with h2 | he2'
      · rw [h1, h2]
      · exfalso
        have hb2 := hbound e2 he2'
        rw [h1] at hv
        simp only at hv
        omega
      · exfalso
        have hb1 := hbound e1 he1'
        rw [h2] at hv
        simp only at hv
        omega
      · exact hinj e1 e2 he1' he2' hv

/-- C5 (counterexample): wholesale buffer replacement (the `palette`
setter) with 257 bytes on a mode-"L" palette yields a `colors` dict of
257 entries, violating the claimed 256 bound; the setter never checks
the buffer size. -/
theorem claim5_counterexample :
    (setPalette { mode := "L", rawmode := none, palette := List.range 256,
                  colors := [], dirty := none } (List.range 257)).map
      (fun q => q.colors.length) = .ok 257 ∧ ¬ (257 ≤ 256) := by
  exact ⟨by decide, by decide⟩

/-- C5 (amended): after every rebuild of `colors` from a buffer (done by
construction, wholesale buffer replacement, raw wrapping, and copy), no
index value is assigned to two different keys, and `len(colors)` is at
most the number of scanned chunks `ceil(len(buffer)/C)` — hence at most
256 whenever `len(buffer) <= 256*C`, which size-0 validated construction
guarantees but raw wrapping and explicit nonzero sizes do not (see the
counterexample); moreover a successful `getcolor` call keeps
`len(colors) <= 256`. -/
theorem claim5_theorem :
    (∀ C buf, 0 < C →
      (∀ e1 e2, e1 ∈ buildColors C buf → e2 ∈ buildColors C buf →
        e1.2 = e2.2 → e1.1 = e2.1) ∧
      (buildColors C buf).length ≤ (buf.length + C - 1) / C ∧
      (buf.length ≤ 256 * C → (buildColors C buf).length ≤ 256)) ∧
    (∀ (p : ImagePalette) (t : ColorKey) (i : Nat) (p' : ImagePalette),
      p.colors.length ≤ 256 → getcolor p (.tup t) = (.ok i, p') →
      p'.colors.length ≤ 256) := by
  constructor
  · intro C buf hC
    have hcnt : (if C = 0 then 0 else (buf.length + C - 1) / C) = (buf.length + C - 1) / C := by
      simp [Nat.pos_iff_ne_zero.mp hC]
    refine ⟨?_, ?_, ?_⟩
    · intro e1 e2 h1 h2 hv
      exact buildColorsGo_value_inj C buf hC _ [] 0 (by simp) (by simp) e1 e2
        (by simpa [buildColors, hcnt] using h1) (by simpa [buildColors, hcnt] using h2) hv
    · have := buildColorsGo_length_le C buf ((buf.length + C - 1) / C) [] 0
      simpa [buildColors, hcnt] using this
    · intro hle
      have hb : (buildColors C buf).length ≤ (buf.length + C - 1) / C := by
        have := buildColorsGo_length_le C buf ((buf.length + C - 1) / C) [] 0
        simpa [buildColors, hcnt] using this
      have hmul : buf.length + C - 1 < 257 * C := by
        have h257 : 257 * C = 256 * C + C := by ring
        omega
      have hdivlt : (buf.length + C - 1) / C < 257 := (Nat.div_lt_iff_lt_mul hC).mpr hmul
      omega
  · intro p t i p' hle h
    by_cases hr : isRaw p
    · rw [getcolor_raw hr] at h
      simp at h
    · cases hlk : dlookup p.colors t with
      | some j =>
        rw [getcolor_lookup (by simpa using hr) hlk] at h
        simp only [Prod.mk.injEq] at h
        rw [← h.2]
        exact hle
      | none =>
        obtain ⟨rfl, hlt, v0, v1, v2, _, _, _, _, hp⟩ :=
          getcolor_alloc (by simpa using hr) hlk h
        rw [hp]
        simp only [length_dinsert_of_none hlk]
        omega

/-- Witness palette for C5: a non-raw RGB palette with room for one more color. -/
def paletteC5 : ImagePalette :=
  { mode := "RGB", rawmode := none, palette := List.replicate 768 7
    colors := [([7, 7, 7], 255)], dirty := none }

/-- State after allocating (1, 2, 3) on `paletteC5`. -/
def paletteC5' : ImagePalette :=
  { mode := "RGB", rawmode := none
    palette := (((List.replicate 768 7).set 1 1).set 257 2).set 513 3
    colors := [([7, 7, 7], 255), ([1, 2, 3], 1)], dirty := some 1 }

/-- C5 witness: the rebuild bounds and the getcolor bound evaluated on
concrete inputs. -/
theorem claim5_witness :
    (buildColors 1 [5, 5]).length ≤ (([5, 5] : List Nat).length + 1 - 1) / 1 ∧
    (buildColors 1 [5, 5]).length ≤ 256 ∧
    getcolor paletteC5 (.tup [1, 2, 3]) = (.ok 1, paletteC5') ∧
    paletteC5'.colors.length ≤ 256 := by
  have h : getcolor paletteC5 (.tup [1, 2, 3]) = (.ok 1, paletteC5') := by decide
  exact ⟨(claim5_theorem.1 1 [5, 5] (by decide)).2.1,
    (claim5_theorem.1 1 [5, 5] (by decide)).2.2 (by decide), h,
    claim5_theorem.2 paletteC5 [1, 2, 3] 1 paletteC5' (by decide) h⟩

/-- Indices returned by a fully successful run of `getcolor` on distinct
fresh tuples: the k-th call returns `len(colors_before) + k`. -/
theorem runOk_fresh :
    ∀ (news : List ColorKey) (p : ImagePalette) (rs : List Nat) (p' : ImagePalette),
      isRaw p = false → news.Nodup → (∀ t ∈ news, dlookup p.colors t = none) →
      runOk p news = some (rs, p') →
      ∀ k, k < news.length → rs[k]? = some (p.colors.length + k) := by
  intro news
  induction news with
  | nil =>
    intro p rs p' _ _ _ _ k hk
    simp at hk
  | cons t rest ih =>
    intro p rs p' hr hnd hfresh hrun k hk
    have hlk : dlookup p.colors t = none := hfresh t (by simp)
    cases hg : getcolor p (.tup t) with
    | mk r p1 =>
      cases r with
      | error e =>
        simp only [runOk, hg] at hrun
        exact Option.noConfusion hrun
      | ok i =>
        simp only [runOk, hg] at hrun
        cases hrest : runOk p1 rest with
        | none =>
          rw [hrest] at hrun
          exact Option.noConfusion hrun
        | some rq =>
          rw [hrest] at hrun
          simp at hrun
          obtain ⟨hrs, hp2⟩ := hrun
          subst hrs
          obtain ⟨rfl, hlt, v0, v1, v2, _, _, _, _, hp⟩ := getcolor_alloc hr hlk hg
          have hcols : p1.colors = p.colors ++ [(t, p.colors.length)] := by
            rw [hp]
            exact dinsert_of_dlookup_none hlk
          have hr1 : isRaw p1 = false := by
            rw [hp]
            simpa [isRaw] using hr
          cases k with
          | zero =>
            simp
          | succ k' =>
            have hfresh1 : ∀ t' ∈ rest, dlookup p1.colors t' = none := by
              intro t' ht'
              have hne : t' ≠ t := by
                rintro rfl
                exact (List.nodup_cons.mp hnd).1 ht'
              rw [hcols, dlookup_append_single_ne hne]
              exact hfresh t' (List.mem_cons_of_mem _ ht')
            have hlen1 : p1.colors.length = p.colors.length + 1 := by
              rw [hcols]
              simp
            have := ih p1 rq.1 rq.2 hr1 (List.nodup_cons.mp hnd).2 hfresh1
              (by rw [hrest]) k' (by simpa using hk)
            simpa [hlen1, Nat.add_assoc, Nat.add_comm 1 k'] using this

/-- C3: on a non-raw palette, a `getcolor` call whose tuple is already a
key returns the stored index and leaves the entire state (in particular
`colors`) unchanged, and in any fully successful run over distinct
never-seen tuples the k-th request (0-based) is allocated index
`len(colors_before) + k`, in strict request order. -/
theorem claim3_theorem (p : ImagePalette) (hraw : p.rawmode = none) :
    (∀ t i, dlookup p.colors t = some i → getcolor p (.tup t) = (.ok i, p)) ∧
    (∀ (news : List ColorKey) (rs : List Nat) (p' : ImagePalette),
      news.Nodup → (∀ t ∈ news, dlookup p.colors t = none) →
      runOk p news = some (rs, p') →
      ∀ k, k < news.length → rs[k]? = some (p.colors.length + k)) := by
  have hr : isRaw p = false := by simp [isRaw, hraw]
  exact ⟨fun t i hlk => getcolor_lookup hr hlk,
    fun news rs p' hnd hfresh hrun => runOk_fresh news p rs p' hr hnd hfresh hrun⟩

/-- Witness palette for C3: a non-raw RGB palette with one existing color. -/
def paletteC3 : ImagePalette :=
  { mode := "RGB", rawmode := none, palette := List.replicate 768 0
    colors := [([0, 0, 0], 255)], dirty := none }

/-- State after allocating (1, 1, 1) then (2, 2, 2) on `paletteC3`. -/
def paletteC3' : ImagePalette :=
  { mode := "RGB", rawmode := none
    palette := ((((((List.replicate 768 0).set 1 1).set 257 1).set 513 1).set 2 2).set
      258 2).set 514 2
    colors := [([0, 0, 0], 255), ([1, 1, 1], 1), ([2, 2, 2], 2)], dirty := some 1 }

/-- C3 witness: idempotent lookup and first-come-first-served indices
evaluated on a concrete run. -/
theorem claim3_witness :
    getcolor paletteC3 (.tup [0, 0, 0]) = (.ok 255, paletteC3) ∧
    runOk paletteC3 [[1, 1, 1], [2, 2, 2]] = some ([1, 2], paletteC3') ∧
    ([1, 2] : List Nat)[0]? = some (paletteC3.colors.length + 0) ∧
    ([1, 2] : List Nat)[1]? = some (paletteC3.colors.length + 1) := by
  have hrun : runOk paletteC3 [[1, 1, 1], [2, 2, 2]] = some ([1, 2], paletteC3') := by decide
  refine ⟨(claim3_theorem paletteC3 rfl).1 [0, 0, 0] 255 (by decide), hrun, ?_, ?_⟩
  · exact (claim3_theorem paletteC3 rfl).2 [[1, 1, 1], [2, 2, 2]] [1, 2] paletteC3'
      (by decide) (by decide) hrun 0 (by decide)
  · exact (claim3_theorem paletteC3 rfl).2 [[1, 1, 1], [2, 2, 2]] [1, 2] paletteC3'
      (by decide) (by decide) hrun 1 (by decide)

/-- C8: `copy()` duplicates the buffer (`self.palette[:]`) into a fresh
heap slot, so the copy and the original alias nothing: a successful
allocating `getcolor` on the copy writes only the copy's slot and leaves
the original's buffer (and, the handles being separate values, the
original's `colors`) unchanged, and symmetrically mutating the original
leaves the copy's buffer unchanged. -/
theorem claim8_theorem (H : List (List Nat)) (q : PalHandle)
    (hvalid : q.bufId < H.length)
    (H1 : List (List Nat)) (q1 : PalHandle)
    (hcopy : copyH H q = .ok (H1, q1)) :
    q1.bufId ≠ q.bufId ∧
    (∀ (c : ColorArg) (r : Except PyErr Nat) (H2 : List (List Nat)) (q2 : PalHandle) (i : Nat),
      getcolorH H1 q1 c = (r, H2, q2) → r = .ok i →
      H2[q.bufId]? = H[q.bufId]? ∧ q2.bufId = q1.bufId) ∧
    (∀ (c : ColorArg) (r : Except PyErr Nat) (H2 : List (List Nat)) (q2 : PalHandle),
      getcolorH H1 q c = (r, H2, q2) →
      H2[q1.bufId]? = H1[q1.bufId]?) := by
  by_cases hm : q.mode.length = 0
  · simp [copyH, hm] at hcopy
  · simp only [copyH, hm, if_false, Except.ok.injEq, Prod.mk.injEq] at hcopy
    obtain ⟨hH1, hq1⟩ := hcopy
    have hid : q1.bufId = H.length := by rw [← hq1]
    have hne : q1.bufId ≠ q.bufId := by omega
    refine ⟨hne, ?_, ?_⟩
    · intro c r H2 q2 i hg _
      simp only [getcolorH, Prod.mk.injEq] at hg
      obtain ⟨_, hH2, hq2⟩ := hg
      constructor
      · rw [← hH2, List.getElem?_set_ne hne, ← hH1]
        exact List.getElem?_append_left hvalid
      · rw [← hq2]
    · intro c r H2 q2 hg
      simp only [getcolorH, Prod.mk.injEq] at hg
      obtain ⟨_, hH2, _⟩ := hg
      rw [← hH2, List.getElem?_set_ne (Ne.symm hne)]

/-- Witness heap and handles for C8. -/
def heapC8 : List (List Nat) := [List.replicate 768 0]

def handleC8 : PalHandle :=
  { mode := "RGB", rawmode := none, bufId := 0, colors := [([0, 0, 0], 255)], dirty := none }

def heapC8' : List (List Nat) := [List.replicate 768 0, List.replicate 768 0]

def handleC8' : PalHandle :=
  { mode := "RGB", rawmode := none, bufId := 1, colors := [([0, 0, 0], 255)], dirty := none }

def heapC8'' : List (List Nat) :=
  [List.replicate 768 0, (((List.replicate 768 0).set 1 1).set 257 2).set 513 3]

def handleC8'' : PalHandle :=
  { mode := "RGB", rawmode := none, bufId := 1
    colors := [([0, 0, 0], 255), ([1, 2, 3], 1)], dirty := some 1 }

def heapC8b : List (List Nat) :=
  [(((List.replicate 768 0).set 1 9).set 257 9).set 513 9, List.replicate 768 0]

def handleC8b : PalHandle :=
  { mode := "RGB", rawmode := none, bufId := 0
    colors := [([0, 0, 0], 255), ([9, 9, 9], 1)], dirty := some 1 }

/-- C8 witness: copy-then-mutate independence evaluated on a concrete heap. -/
theorem claim8_witness :
    copyH heapC8 handleC8 = .ok (heapC8', handleC8') ∧
    handleC8'.bufId ≠ handleC8.bufId ∧
    getcolorH heapC8' handleC8' (.tup [1, 2, 3]) = (.ok 1, heapC8'', handleC8'') ∧
    heapC8''[handleC8.bufId]? = heapC8[handleC8.bufId]? ∧
    getcolorH heapC8' handleC8 (.tup [9, 9, 9]) = (.ok 1, heapC8b, handleC8b) ∧
    heapC8b[handleC8'.bufId]? = heapC8'[handleC8'.bufId]? := by
  have hcopy : copyH heapC8 handleC8 = .ok (heapC8', handleC8') := by decide
  have hc := claim8_theorem heapC8 handleC8 (by decide) heapC8' handleC8' hcopy
  have hg1 : getcolorH heapC8' handleC8' (.tup [1, 2, 3]) = (.ok 1, heapC8'', handleC8'') := by
    decide
  have hg2 : getcolorH heapC8' handleC8 (.tup [9, 9, 9]) = (.ok 1, heapC8b, handleC8b) := by
    decide
  exact ⟨hcopy, hc.1, hg1, (hc.2.1 _ _ _ _ 1 hg1 rfl).1, hg2, hc.2.2 _ _ _ _ hg2⟩

/-! Decimal rendering produces no newline characters. -/

theorem digitChar_ne_newline (n : Nat) : Nat.digitChar n ≠ '\n' := by
  rcases Nat.lt_or_ge n 16 with h | h
  · interval_cases n <;> decide
  · have e : Nat.digitChar n = Char.ofNat 42 := by
      unfold Nat.digitChar
      repeat rw [if_neg (by omega)]
    rw [e]
    decide

theorem toDigitsCore_ne_newline :
    ∀ (fuel b n : Nat) (acc : List Char), (∀ c ∈ acc, c ≠ '\n') →
      ∀ c ∈ Nat.toDigitsCore b fuel n acc, c ≠ '\n' := by
  intro fuel
  induction fuel with
  | zero =>
    intro b n acc hacc c hc
    exact hacc c (by simpa [Nat.toDigitsCore] using hc)
  | succ fuel ih =>
    intro b n acc hacc c hc
    simp only [Nat.toDigitsCore] at hc
    by_cases hdiv : n / b = 0
    · rw [if_pos hdiv] at hc
      rcases List.mem_cons.mp hc with rfl | hc'
      · exact digitChar_ne_newline _
      · exact hacc c hc'
    · rw [if_neg hdiv] at hc
      refine ih b (n / b) _ ?_ c hc
      intro c' hc'
      rcases List.mem_cons.mp hc' with rfl | hcc
      · exact digitChar_ne_newline _
      · exact hacc c' hcc

theorem repr_ne_newline (n : Nat) : '\n' ∉ (Nat.repr n).data := by
  intro h
  exact toDigitsCore_ne_newline (n + 1) 10 n [] (by simp) '\n' h rfl

/-! Splitting the written character stream back into lines. -/

theorem splitLinesAcc_break (xs : List Char) :
    ∀ rest acc : List Char, '\n' ∉ xs →
      splitLinesAcc (xs ++ '\n' :: rest) acc = (acc.reverse ++ xs) :: splitLinesAcc rest [] := by
  induction xs with
  | nil =>
    intro rest acc _
    simp [splitLinesAcc]
  | cons x xs ih =>
    intro rest acc h
    have hx : ¬ x = '\n' := by
      intro hx
      exact h (by simp [hx])
    simp only [List.cons_append, splitLinesAcc, hx, if_false, List.append_eq]
    rw [ih rest (x :: acc) (fun hm => h (List.mem_cons_of_mem _ hm))]
    simp

theorem data_mk (l : List Char) : (String.mk l).data = l := rfl

theorem mk_data (s : String) : String.mk s.data = s := rfl

/-- The data chunks of one save entry spell the data line followed by a
newline. -/
theorem entryChunks_data (p : ImagePalette) (i : Nat) :
    (entryChunks p i).flatMap String.data = (specSaveLine p i).data ++ ['\n'] := by
  simp only [entryChunks, specSaveLine, data_mk, List.flatMap_append, List.flatMap_cons,
    List.flatMap_nil, List.flatMap_map, List.append_nil, List.append_assoc]

/-- A save data line contains no newline character. -/
theorem specSaveLine_ne_newline (p : ImagePalette) (i : Nat) :
    '\n' ∉ (specSaveLine p i).data := by
  intro h
  simp only [specSaveLine, data_mk, List.mem_append, List.mem_flatMap] at h
  rcases h with h | ⟨c, _, h⟩
  · exact repr_ne_newline i h
  · cases hv : p.palette[i * p.mode.length + c]? with
    | some v =>
      rw [hv] at h
      simp only [String.data_append] at h
      rcases List.mem_append.mp h with h' | h'
      · exact absurd h' (by decide)
      · exact repr_ne_newline v h'
    | none =>
      rw [hv] at h
      exact absurd h (by decide)

/-- Lines spelled by a flat run of save entries. -/
theorem textLines_entries (p : ImagePalette) :
    ∀ is : List Nat,
      textLines ((is.flatMap (entryChunks p)).flatMap String.data) =
        is.map (fun i => (specSaveLine p i).data) := by
  intro is
  induction is with
  | nil => rfl
  | cons i is ih =>
    simp only [List.flatMap_cons, List.flatMap_append, List.map_cons]
    rw [entryChunks_data]
    have hshape : ((specSaveLine p i).data ++ ['\n']) ++ (is.flatMap (entryChunks p)).flatMap String.data
        = (specSaveLine p i).data ++ '\n' :: (is.flatMap (entryChunks p)).flatMap String.data := by
      simp
    rw [hshape]
    unfold textLines
    rw [splitLinesAcc_break _ _ _ (specSaveLine_ne_newline p i)]
    simp only [List.reverse_nil, List.nil_append, List.cons.injEq, true_and]
    exact ih

/-- Lines of the text written by `save` on a non-raw palette whose mode
contains no newline: the two headers, then one data line per index with
the interleaved-position values. -/
theorem saveLines_spec (p : ImagePalette) (hraw : isRaw p = false) (hm : '\n' ∉ p.mode.data) :
    saveLinesE p = .ok (["# Palette", "# Mode: " ++ p.mode] ++
      (List.range 256).map (specSaveLine p)) := by
  have hA : ("# Palette\n" : String).data = ("# Palette" : String).data ++ ['\n'] := rfl
  have hB : ("# Mode: " ++ p.mode ++ "\n").data = ("# Mode: " ++ p.mode).data ++ ['\n'] := by
    rw [String.data_append]
  have hBn : '\n' ∉ ("# Mode: " ++ p.mode).data := by
    rw [String.data_append]
    intro hmem
    rcases List.mem_append.mp hmem with h' | h'
    · exact absurd h' (by decide)
    · exact hm h'
  simp only [saveLinesE, saveChunks, hraw, Bool.false_eq_true, if_false, Except.map_ok,
    Except.ok.injEq, Except.map, List.flatMap_cons, List.flatMap_append, List.append_assoc,
    List.nil_append, List.flatMap_nil, List.append_nil, hA, hB]
  have hshape2 : ['#', ' ', 'P', 'a', 'l', 'e', 't', 't', 'e', '\n'] ++
      (("# Mode: " ++ p.mode).data ++
        (['\n'] ++ ((List.range 256).flatMap (entryChunks p)).flatMap String.data))
      = ("# Palette" : String).data ++ '\n' ::
        (("# Mode: " ++ p.mode).data ++ '\n' ::
          ((List.range 256).flatMap (entryChunks p)).flatMap String.data) := by
    simp
  rw [hshape2]
  unfold textLines
  rw [splitLinesAcc_break _ _ _ (by decide)]
  rw [splitLinesAcc_break _ _ _ hBn]
  have hrest := textLines_entries p (List.range 256)
  unfold textLines at hrest
  rw [hrest]
  simp [mk_data, List.map_map, Function.comp]
  generalize p.mode = m
  obtain ⟨l⟩ := m
  rfl

/-- The palette built by `wedge("RGB")`. -/
def wedgeRGB : ImagePalette :=
  { mode := "RGB", rawmode := none, palette := defaultRamp 3
    colors := buildColors 3 (defaultRamp 3), dirty := none }

theorem wedge_eq : wedge "RGB" = .ok wedgeRGB := by
  rfl

theorem wedgeLine0 : specSaveLine wedgeRGB 0 = "0 0 1 2" := by decide

theorem wedgeLine255 : specSaveLine wedgeRGB 255 = "255 253 254 255" := by decide

/-- C6 (counterexample): `wedge("RGB")` followed by `save` produces 258
lines, but line 3 is "0 0 1 2" (the interleaved positions 0, 1, 2 of the
planar ramp buffer), not the claimed channel-planar "0 0 0 0"; likewise
line 258 is "255 253 254 255", not "255 255 255 255": the data lines of
`save` read the buffer at `i*len(mode) + c`, not at `c*256 + i`. -/
theorem claim6_counterexample :
    ((wedge "RGB").bind saveLinesE).map (fun L => (L.length, L[2]?, L[257]?)) =
      .ok (258, some "0 0 1 2", some "255 253 254 255") ∧
    ("0 0 1 2" : String) ≠ "0 0 0 0" ∧
    ("255 253 254 255" : String) ≠ "255 255 255 255" := by
  refine ⟨?_, by decide, by decide⟩
  rw [wedge_eq]
  simp only [Except.bind]
  rw [saveLines_spec wedgeRGB rfl (by decide)]
  have hlen : (["# Palette", "# Mode: " ++ wedgeRGB.mode] ++
      List.map (specSaveLine wedgeRGB) (List.range 256)).length = 258 := by
    simp
  have h2 : (["# Palette", "# Mode: " ++ wedgeRGB.mode] ++
      List.map (specSaveLine wedgeRGB) (List.range 256))[2]? = some "0 0 1 2" := by
    rw [List.getElem?_append_right (by simp)]
    simp [List.getElem?_range (by omega : 0 < 256), wedgeLine0]
  have h257 : (["# Palette", "# Mode: " ++ wedgeRGB.mode] ++
      List.map (specSaveLine wedgeRGB) (List.range 256))[257]? = some "255 253 254 255" := by
    rw [List.getElem?_append_right (by simp)]
    simp [List.getElem?_range (by omega : 255 < 256), wedgeLine255]
  simp only [Except.map, hlen, h2, h257]

/-- C6 (amended): for every non-raw palette (with a newline-free mode
tag), `save` writes the line "# Palette", then "# Mode: <mode>", then
exactly 256 data lines where the line for index `i` lists `i` followed
by the buffer value at each interleaved position `i*len(mode) + c` for
`c < len(mode)` — not the channel-planar position `c*256 + i` — writing
0 for any out-of-range access instead of failing; in particular
`wedge("RGB")` followed by `save` produces exactly 258 lines with line 3
equal to "0 0 1 2" and line 258 equal to "255 253 254 255". -/
theorem claim6_theorem :
    (∀ p : ImagePalette, p.rawmode = none → '\n' ∉ p.mode.data →
      saveLinesE p = .ok (["# Palette", "# Mode: " ++ p.mode] ++
        (List.range 256).map (specSaveLine p))) ∧
    wedge "RGB" = .ok wedgeRGB ∧
    (saveLinesE wedgeRGB).map List.length = .ok 258 ∧
    (saveLinesE wedgeRGB).map (fun L => L[2]?) = .ok (some "0 0 1 2") ∧
    (saveLinesE wedgeRGB).map (fun L => L[257]?) = .ok (some "255 253 254 255") := by
  have hgen : ∀ p : ImagePalette, p.rawmode = none → '\n' ∉ p.mode.data →
      saveLinesE p = .ok (["# Palette", "# Mode: " ++ p.mode] ++
        (List.range 256).map (specSaveLine p)) := by
    intro p hraw hm
    exact saveLines_spec p (by simp [isRaw, hraw]) hm
  have hw := hgen wedgeRGB rfl (by decide)
  have h2 : (["# Palette", "# Mode: " ++ wedgeRGB.mode] ++
      List.map (specSaveLine wedgeRGB) (List.range 256))[2]? = some "0 0 1 2" := by
    rw [List.getElem?_append_right (by simp)]
    simp [List.getElem?_range (by omega : 0 < 256), wedgeLine0]
  have h257 : (["# Palette", "# Mode: " ++ wedgeRGB.mode] ++
      List.map (specSaveLine wedgeRGB) (List.range 256))[257]? = some "255 253 254 255" := by
    rw [List.getElem?_append_right (by simp)]
    simp [List.getElem?_range (by omega : 255 < 256), wedgeLine255]
  refine ⟨hgen, wedge_eq, ?_, ?_, ?_⟩
  · rw [hw]
    simp only [Except.map]
    simp
  · rw [hw]
    simp only [Except.map, h2]
  · rw [hw]
    simp only [Except.map, h257]

/-- C6 witness: the line-level description evaluated on the wedge palette. -/
theorem claim6_witness :
    saveLinesE wedgeRGB = .ok (["# Palette", "# Mode: " ++ wedgeRGB.mode] ++
      (List.range 256).map (specSaveLine wedgeRGB)) :=
  claim6_theorem.1 wedgeRGB rfl (by decide)
